import Mathlib

/-!
# Verification of the canvas-test renderer

A shallow embedding, over `ℚ`, of the renderer in `src/graphic.ts` and the
page glue in `src/main.ts` (and its unnamed variant), together with proofs
of the behavioural properties stated in the design document.

Timestamps, pixel dimensions and shader inputs are modelled as rational
numbers; the GPU context is modelled by recording, in the renderer state,
the observable effects the code performs on it (draw calls with their
uniforms and viewport, buffer contents, program identity, counters of
shader compilations and buffer allocations, and host-loop re-registrations).
-/

namespace CanvasTest

/-- `const FPS = 48;` (src/graphic.ts line 1). -/
def FPS : ℚ := 48

/-- `const MILLIS_PER_FRAME = (1 / FPS) * 1000;` (src/graphic.ts line 2). -/
def MILLIS_PER_FRAME : ℚ := (1 / FPS) * 1000

/-- Contents of the `VERTICES` Float32Array: one screen-filling quad. -/
def VERTICES : List ℚ := [-1, -1, -1, 1, 1, -1, 1, 1]

/-- Contents of the `UVS` Float32Array. -/
def UVS : List ℚ := [0, 1, 0, 0, 1, 1, 1, 0]

/-- One draw call as issued by `Graphic.render`: the viewport set by
`gl.viewport(0, 0, width, height)`, the two uniforms uploaded by
`gl.uniform2fv(screen, [width, height])` and `gl.uniform1f(time, time)`,
and the vertex count of the `TRIANGLE_STRIP` draw. -/
structure DrawCall where
  viewportW : ℚ
  viewportH : ℚ
  screenW : ℚ
  screenH : ℚ
  time : ℚ
  vertexCount : ℕ
deriving Repr, DecidableEq

/-- The mutable fields of the `Graphic` class together with the observable
effects it has performed on the GPU context and the host loop. -/
structure GraphicState where
  /-- `this.width` -/
  width : ℚ
  /-- `this.height` -/
  height : ℚ
  /-- `this.canvas.width` (backing pixel buffer width) -/
  canvasWidth : ℚ
  /-- `this.canvas.height` -/
  canvasHeight : ℚ
  /-- `this.lastTimestamp: number | undefined` -/
  lastTimestamp : Option ℚ
  /-- `this.time` -/
  time : ℚ
  /-- `this.delta` (accumulated unconsumed milliseconds) -/
  delta : ℚ
  /-- handle of `this.program` (identity of the linked GPU program) -/
  program : ℕ
  /-- contents of `this.buffers.vertex` -/
  vertexBuffer : List ℚ
  /-- contents of `this.buffers.uv` -/
  uvBuffer : List ℚ
  /-- number of `gl.compileShader` calls performed so far -/
  shaderCompiles : ℕ
  /-- number of `gl.createBuffer`/`gl.bufferData` allocations so far -/
  bufferAllocs : ℕ
  /-- draw calls issued so far, oldest first -/
  draws : List DrawCall
  /-- number of `requestAnimationFrame` registrations issued so far -/
  rafRequests : ℕ
deriving Repr, DecidableEq

namespace Graphic

/-- The state produced by a successful `new Graphic(canvas)` when the
window reports `innerWidth = w` and `innerHeight = h`: the constructor
calls `resize()` (capturing window dimensions), compiles the two shaders,
links one program and allocates the two geometry buffers. -/
def init (w h : ℚ) : GraphicState :=
  { width := w
    height := h
    canvasWidth := w
    canvasHeight := h
    lastTimestamp := none
    time := 0
    delta := 0
    program := 1
    vertexBuffer := VERTICES
    uvBuffer := UVS
    shaderCompiles := 2
    bufferAllocs := 2
    draws := []
    rafRequests := 0 }

/-- `Graphic.render` (src/graphic.ts lines 172-208): sets the viewport to
the current surface dimensions, uploads the `screen` and `time` uniforms,
rebinds the two geometry buffers, and issues one triangle-strip draw over
`VERTICES.length / 2` vertices. -/
def render (s : GraphicState) : GraphicState :=
  { s with draws := s.draws ++
      [{ viewportW := s.width
         viewportH := s.height
         screenW := s.width
         screenH := s.height
         time := s.time
         vertexCount := VERTICES.length / 2 }] }

/-- `Graphic.frame(timestamp)` (src/graphic.ts lines 154-169): on the first
callback `lastTimestamp` is first set to `timestamp`; then
`delta += timestamp - lastTimestamp`, `time = timestamp / 1000`; if
`delta >= MILLIS_PER_FRAME` one `render()` is issued and one frame interval
subtracted; finally `lastTimestamp = timestamp` and the callback
re-registers itself with `requestAnimationFrame`. -/
def frame (s : GraphicState) (timestamp : ℚ) : GraphicState :=
  let last := s.lastTimestamp.getD timestamp
  let s1 := { s with delta := s.delta + (timestamp - last), time := timestamp / 1000 }
  let s2 :=
    if MILLIS_PER_FRAME ≤ s1.delta then
      let r := render s1
      { r with delta := r.delta - MILLIS_PER_FRAME }
    else s1
  { s2 with lastTimestamp := some timestamp, rafRequests := s2.rafRequests + 1 }

/-- `Graphic.resize` (src/graphic.ts lines 255-260): re-reads the window
dimensions and resizes the canvas backing buffer to match. Nothing else
in the state is touched. -/
def resize (s : GraphicState) (w h : ℚ) : GraphicState :=
  { s with width := w, height := h, canvasWidth := w, canvasHeight := h }

/-- Run a sequence of host-loop callbacks, oldest timestamp first. -/
def run (s : GraphicState) : List ℚ → GraphicState
  | [] => s
  | t :: ts => run (frame s t) ts

/-! ### Unfolding lemmas for `frame` and `run` -/

theorem frame_eq (s : GraphicState) (t : ℚ) :
    frame s t =
      (if MILLIS_PER_FRAME ≤ s.delta + (t - s.lastTimestamp.getD t) then
        { s with delta := s.delta + (t - s.lastTimestamp.getD t) - MILLIS_PER_FRAME
                 time := t / 1000
                 draws := s.draws ++
                   [{ viewportW := s.width, viewportH := s.height, screenW := s.width,
                      screenH := s.height, time := t / 1000, vertexCount := 4 }]
                 lastTimestamp := some t
                 rafRequests := s.rafRequests + 1 }
      else
        { s with delta := s.delta + (t - s.lastTimestamp.getD t)
                 time := t / 1000
                 lastTimestamp := some t
                 rafRequests := s.rafRequests + 1 }) := by
  by_cases hc : MILLIS_PER_FRAME ≤ s.delta + (t - s.lastTimestamp.getD t) <;>
    simp [frame, render, hc, VERTICES]

theorem run_nil (s : GraphicState) : run s [] = s := rfl

theorem run_cons (s : GraphicState) (t : ℚ) (ts : List ℚ) :
    run s (t :: ts) = run (frame s t) ts := rfl

theorem frame_lastTimestamp (s : GraphicState) (t : ℚ) :
    (frame s t).lastTimestamp = some t := by
  rw [frame_eq]; split <;> rfl

theorem frame_width (s : GraphicState) (t : ℚ) : (frame s t).width = s.width := by
  rw [frame_eq]; split <;> rfl

theorem frame_height (s : GraphicState) (t : ℚ) : (frame s t).height = s.height := by
  rw [frame_eq]; split <;> rfl

/-- Behaviour of the first callback after construction: no draw is issued
(the accumulated time is zero, below one frame interval), the timestamp is
recorded, and the callback re-registers with the host loop. -/
theorem frame_init (w h t : ℚ) :
    frame (init w h) t =
      { init w h with time := t / 1000, lastTimestamp := some t, rafRequests := 1 } := by
  rw [frame_eq]
  norm_num [init, MILLIS_PER_FRAME, FPS]

theorem frame_init_delta (w h t : ℚ) : (frame (init w h) t).delta = 0 := by
  rw [frame_init]; rfl

theorem frame_init_draws (w h t : ℚ) : (frame (init w h) t).draws = [] := by
  rw [frame_init]; rfl

/-! ### Accounting invariants of the render loop -/

/-- Core balance identity: from a state with a recorded last timestamp and
nonnegative accumulated time, running a strictly increasing chain of
callbacks issues some number `k` of new draws, and afterwards
`delta = delta₀ + (last − t₀) − k · MILLIS_PER_FRAME`, still nonnegative,
with the last timestamp equal to the final callback's timestamp. -/
theorem run_spec (l : List ℚ) : ∀ (s : GraphicState) (t0 : ℚ),
    s.lastTimestamp = some t0 → List.Chain (· < ·) t0 l → 0 ≤ s.delta →
    ∃ k : ℕ, (run s l).draws.length = s.draws.length + k ∧
      (run s l).delta = s.delta + (l.getLastD t0 - t0) - MILLIS_PER_FRAME * k ∧
      0 ≤ (run s l).delta ∧
      (run s l).lastTimestamp = some (l.getLastD t0) := by
  induction l with
  | nil =>
    intro s t0 hlast _ hd
    exact ⟨0, by simp [run_nil], by simp [run_nil], by simpa [run_nil] using hd,
      by simpa [run_nil] using hlast⟩
  | cons t ts ih =>
    intro s t0 hlast hchain hd
    rw [List.chain_cons] at hchain
    obtain ⟨hlt, hchain2⟩ := hchain
    rw [run_cons]
    have hgetD : s.lastTimestamp.getD t = t0 := by rw [hlast]; rfl
    have key : ∃ j : ℕ, (frame s t).draws.length = s.draws.length + j ∧
        (frame s t).delta = s.delta + (t - t0) - MILLIS_PER_FRAME * j ∧
        0 ≤ (frame s t).delta := by
      rw [frame_eq, hgetD]
      by_cases hc : MILLIS_PER_FRAME ≤ s.delta + (t - t0)
      · rw [if_pos hc]
        refine ⟨1, ?_, ?_, ?_⟩ <;> dsimp only
        · simp
        · push_cast; ring
        · linarith
      · rw [if_neg hc]
        refine ⟨0, ?_, ?_, ?_⟩ <;> dsimp only
        · simp
        · push_cast; ring
        · linarith
    obtain ⟨j, hjlen, hjdelta, hjnn⟩ := key
    obtain ⟨k, hklen, hkdelta, hknn, hklast⟩ :=
      ih (frame s t) t (frame_lastTimestamp s t) hchain2 hjnn
    refine ⟨j + k, ?_, ?_, hknn, ?_⟩
    · rw [hklen, hjlen]; omega
    · rw [hkdelta, hjdelta, List.getLastD_cons]; push_cast; ring
    · rw [hklast, List.getLastD_cons]

/-- When consecutive callbacks are moreover at most one frame interval
apart, the accumulated time stays inside `[0, MILLIS_PER_FRAME)`. -/
theorem run_bounded (l : List ℚ) : ∀ (s : GraphicState) (t0 : ℚ),
    s.lastTimestamp = some t0 →
    List.Chain (fun a b : ℚ => a < b ∧ b - a ≤ MILLIS_PER_FRAME) t0 l →
    0 ≤ s.delta → s.delta < MILLIS_PER_FRAME →
    0 ≤ (run s l).delta ∧ (run s l).delta < MILLIS_PER_FRAME := by
  induction l with
  | nil => intro s t0 _ _ h1 h2; exact ⟨h1, h2⟩
  | cons t ts ih =>
    intro s t0 hlast hchain h1 h2
    rw [List.chain_cons] at hchain
    obtain ⟨⟨hlt, hgap⟩, hchain2⟩ := hchain
    rw [run_cons]
    have hgetD : s.lastTimestamp.getD t = t0 := by rw [hlast]; rfl
    have hfacts : 0 ≤ (frame s t).delta ∧ (frame s t).delta < MILLIS_PER_FRAME := by
      rw [frame_eq, hgetD]
      by_cases hc : MILLIS_PER_FRAME ≤ s.delta + (t - t0)
      · rw [if_pos hc]
        refine ⟨?_, ?_⟩ <;> dsimp only <;> linarith
      · rw [if_neg hc]
        have hc2 := lt_of_not_le hc
        refine ⟨?_, ?_⟩ <;> dsimp only <;> linarith
    exact ih (frame s t) t (frame_lastTimestamp s t) hchain2 hfacts.1 hfacts.2

end Graphic

/-! ### Claim theorems -/

/-- C1, counterexample: the timestamps `0, 100` are strictly increasing, the
second callback issues a draw, yet immediately after that draw the
accumulated time is `100 − 1000/48 = 475/6`, which is NOT below one logical
frame interval — refuting "accumulatedTimeMs after any callback is always
in `[0, frame_interval_ms)`". -/
theorem c1_counterexample :
    List.Chain' (· < ·) [(0 : ℚ), 100] ∧
    (Graphic.run (Graphic.init 1920 1080) [0, 100]).draws.length = 1 ∧
    ¬ (Graphic.run (Graphic.init 1920 1080) [0, 100]).delta < MILLIS_PER_FRAME := by
  refine ⟨?_, ?_, ?_⟩
  · norm_num [List.chain'_cons]
  · norm_num [Graphic.run, Graphic.frame, Graphic.render, Graphic.init,
      MILLIS_PER_FRAME, FPS]
  · norm_num [Graphic.run, Graphic.frame, Graphic.render, Graphic.init,
      MILLIS_PER_FRAME, FPS]

/-- C1, amended: for every strictly increasing sequence of callbacks the
accumulated time `delta` is nonnegative after every callback; it is
moreover below one logical frame interval provided consecutive callbacks
are at most one frame interval apart (on a larger gap the surplus beyond
one interval is carried forward, so the upper bound can be exceeded).
Applying the theorem to a prefix of the sequence gives the bound "after
any callback". -/
theorem c1_accumulated_time (w h : ℚ) (l : List ℚ) (hchain : List.Chain' (· < ·) l) :
    0 ≤ (Graphic.run (Graphic.init w h) l).delta ∧
    (List.Chain' (fun a b : ℚ => a < b ∧ b - a ≤ MILLIS_PER_FRAME) l →
      (Graphic.run (Graphic.init w h) l).delta < MILLIS_PER_FRAME) := by
  have hMPF : (0 : ℚ) < MILLIS_PER_FRAME := by norm_num [MILLIS_PER_FRAME, FPS]
  cases l with
  | nil =>
    exact ⟨le_of_eq rfl, fun _ => hMPF⟩
  | cons t ts =>
    rw [Graphic.run_cons]
    constructor
    · obtain ⟨_, _, _, hnn, _⟩ :=
        Graphic.run_spec ts (Graphic.frame (Graphic.init w h) t) t
          (Graphic.frame_lastTimestamp _ _) hchain (Graphic.frame_init_delta w h t).ge
      exact hnn
    · intro hgaps
      exact (Graphic.run_bounded ts (Graphic.frame (Graphic.init w h) t) t
        (Graphic.frame_lastTimestamp _ _) hgaps (Graphic.frame_init_delta w h t).ge
        (by rw [Graphic.frame_init_delta]; exact hMPF)).2

/-- C1, witness for the amended theorem at callbacks `0, 10, 25` (gaps of
10 and 15 milliseconds, both below one frame interval). -/
theorem c1_witness :
    0 ≤ (Graphic.run (Graphic.init 1920 1080) [0, 10, 25]).delta ∧
    (Graphic.run (Graphic.init 1920 1080) [0, 10, 25]).delta < MILLIS_PER_FRAME := by
  have h := c1_accumulated_time 1920 1080 [0, 10, 25]
    (by norm_num [List.chain'_cons])
  exact ⟨h.1, h.2 (by norm_num [List.chain'_cons, MILLIS_PER_FRAME, FPS])⟩

/-- C2: from the freshly constructed renderer, a strictly increasing
sequence of callbacks `t₁ :: rest` issues at most
`⌊(last − t₁) / MILLIS_PER_FRAME⌋ + 1` draw calls. -/
theorem c2_draw_count (w h t1 : ℚ) (rest : List ℚ)
    (hchain : List.Chain (· < ·) t1 rest) :
    ((Graphic.run (Graphic.init w h) (t1 :: rest)).draws.length : ℤ) ≤
      ⌊(rest.getLastD t1 - t1) / MILLIS_PER_FRAME⌋ + 1 := by
  have hMPF : (0 : ℚ) < MILLIS_PER_FRAME := by norm_num [MILLIS_PER_FRAME, FPS]
  rw [Graphic.run_cons]
  obtain ⟨k, hlen, hdelta, hnn, _⟩ :=
    Graphic.run_spec rest (Graphic.frame (Graphic.init w h) t1) t1
      (Graphic.frame_lastTimestamp _ _) hchain (Graphic.frame_init_delta w h t1).ge
  rw [hlen, Graphic.frame_init_draws]
  have hbal : MILLIS_PER_FRAME * k ≤ rest.getLastD t1 - t1 := by
    rw [Graphic.frame_init_delta] at hdelta
    rw [hdelta] at hnn
    linarith
  have hq : (k : ℚ) ≤ (rest.getLastD t1 - t1) / MILLIS_PER_FRAME := by
    rw [le_div_iff₀ hMPF]
    linarith
  have hz : (k : ℤ) ≤ ⌊(rest.getLastD t1 - t1) / MILLIS_PER_FRAME⌋ :=
    Int.le_floor.mpr (by push_cast; exact hq)
  simp only [List.length_nil]
  push_cast
  linarith

/-- C2, witness: callbacks at `0, 25, 50` issue 2 draw calls, and
`⌊50 / (1000/48)⌋ + 1 = 3` bounds them. -/
theorem c2_witness :
    ((Graphic.run (Graphic.init 1920 1080) [0, 25, 50]).draws.length : ℤ) ≤
      ⌊(([25, 50] : List ℚ).getLastD 0 - 0) / MILLIS_PER_FRAME⌋ + 1 :=
  c2_draw_count 1920 1080 0 [25, 50] (by norm_num [List.chain_cons])

/-- C3: on any single callback, at most one draw is issued; if the
accumulated time (after adding the elapsed time) has reached one logical
frame interval then exactly one draw is issued and exactly one interval is
subtracted (the surplus is kept, not reset to zero); otherwise no draw is
issued and the accumulated time simply grows by the elapsed time. -/
theorem c3_throttle (s : GraphicState) (t : ℚ) :
    (Graphic.frame s t).draws.length ≤ s.draws.length + 1 ∧
    (MILLIS_PER_FRAME ≤ s.delta + (t - s.lastTimestamp.getD t) →
      (Graphic.frame s t).draws.length = s.draws.length + 1 ∧
      (Graphic.frame s t).delta =
        s.delta + (t - s.lastTimestamp.getD t) - MILLIS_PER_FRAME) ∧
    (s.delta + (t - s.lastTimestamp.getD t) < MILLIS_PER_FRAME →
      (Graphic.frame s t).draws.length = s.draws.length ∧
      (Graphic.frame s t).delta = s.delta + (t - s.lastTimestamp.getD t)) := by
  rw [Graphic.frame_eq]
  by_cases hc : MILLIS_PER_FRAME ≤ s.delta + (t - s.lastTimestamp.getD t)
  · rw [if_pos hc]
    refine ⟨?_, fun _ => ⟨?_, ?_⟩, fun hlt => absurd hc (not_le.mpr hlt)⟩ <;>
      dsimp only <;> simp
  · rw [if_neg hc]
    exact ⟨Nat.le_succ _, fun hge => absurd hge hc, fun _ => ⟨rfl, rfl⟩⟩

/-- C3, witness: after a first callback at 0, a second callback at 25 has
accumulated `25 ≥ 1000/48`, so exactly one draw is issued and exactly one
frame interval is subtracted. -/
theorem c3_witness :
    (Graphic.frame (Graphic.frame (Graphic.init 1 1) 0) 25).draws.length =
      (Graphic.frame (Graphic.init 1 1) 0).draws.length + 1 ∧
    (Graphic.frame (Graphic.frame (Graphic.init 1 1) 0) 25).delta =
      (Graphic.frame (Graphic.init 1 1) 0).delta +
        (25 - (Graphic.frame (Graphic.init 1 1) 0).lastTimestamp.getD 25) -
        MILLIS_PER_FRAME :=
  (c3_throttle (Graphic.frame (Graphic.init 1 1) 0) 25).2.1
    (by rw [Graphic.frame_init]; norm_num [Graphic.init, MILLIS_PER_FRAME, FPS])

/-- C4: the first callback after construction never issues a draw, records
its timestamp as the last callback timestamp, and re-registers with the
host loop, for every timestamp value. -/
theorem c4_first_callback (w h t : ℚ) :
    (Graphic.frame (Graphic.init w h) t).draws = [] ∧
    (Graphic.frame (Graphic.init w h) t).lastTimestamp = some t ∧
    (Graphic.frame (Graphic.init w h) t).rafRequests =
      (Graphic.init w h).rafRequests + 1 := by
  rw [Graphic.frame_init]
  exact ⟨rfl, rfl, rfl⟩

/-- C5: constructing against a 1920×1080 surface and invoking callbacks at
timestamps 0 and 25 produces exactly one draw call, with viewport and
`screen` uniform `(1920, 1080)` and `time` uniform `25/1000` seconds. -/
theorem c5_end_to_end :
    (Graphic.run (Graphic.init 1920 1080) [0, 25]).draws =
      [{ viewportW := 1920, viewportH := 1080, screenW := 1920, screenH := 1080,
         time := 25 / 1000, vertexCount := 4 }] := by
  norm_num [Graphic.run, Graphic.frame, Graphic.render, Graphic.init,
    MILLIS_PER_FRAME, FPS, VERTICES]

/-! ### Fragment shader: wave scale (src/graphic.ts line 37) -/

/-- `float wave_scale = max(40.0, min(screen.x / 25.0, pow(screen.x / 80.0, 2.0)));` -/
def wave_scale (width : ℚ) : ℚ := max 40 (min (width / 25) ((width / 80) ^ 2))

/-- C6: for every screen width the shader's wave scale equals
`max(40, min(width/25, (width/80)^2))`; at width 2000 it is 80 and at
width 8000 it is 320. -/
theorem c6_wave_scale :
    (∀ w : ℚ, wave_scale w = max 40 (min (w / 25) ((w / 80) ^ 2))) ∧
    wave_scale 2000 = 80 ∧ wave_scale 8000 = 320 := by
  refine ⟨fun w => rfl, ?_, ?_⟩ <;> norm_num [wave_scale, min_def, max_def]

/-! ### Shader compilation and program linking (src/graphic.ts lines 219-252) -/

/-- The part of the WebGL context that decides success of shader
compilation and program linking: the `COMPILE_STATUS`/`LINK_STATUS`
parameters and the corresponding info logs the driver would report. -/
structure GlEnv where
  vertexOk : Bool
  vertexLog : String
  fragmentOk : Bool
  fragmentLog : String
  linkOk : Bool
  linkLog : String
deriving Repr, DecidableEq

namespace Graphic

/-- `Graphic.compileShader` (src/graphic.ts lines 240-252): compiles one
stage; on `COMPILE_STATUS` failure throws
`Error compiling ${type_str} shader:\n${info}` where `type_str` is
`"vertex"` or `"fragment"` according to the shader type. -/
def compileShader (env : GlEnv) (isVertex : Bool) : Except String Unit :=
  if (if isVertex then env.vertexOk else env.fragmentOk) then
    Except.ok ()
  else
    let type_str := if isVertex then "vertex" else "fragment"
    let info := if isVertex then env.vertexLog else env.fragmentLog
    Except.error ("Error compiling " ++ type_str ++ " shader:\n" ++ info)

/-- `Graphic.createShaderProgram` (src/graphic.ts lines 219-238): compiles
the vertex stage then the fragment stage (an exception from either
propagates immediately), links, and on `LINK_STATUS` failure throws
`Error linking shader program:\n${info}`. -/
def createShaderProgram (env : GlEnv) : Except String Unit := do
  compileShader env true
  compileShader env false
  if env.linkOk then
    pure ()
  else
    Except.error ("Error linking shader program:\n" ++ env.linkLog)

/-- The `Graphic` constructor (src/graphic.ts lines 114-147): captures the
window dimensions, builds the shader program — the only fallible step,
whose exception propagates synchronously out of the constructor — and
allocates the geometry buffers. -/
def construct (env : GlEnv) (w h : ℚ) : Except String GraphicState := do
  createShaderProgram env
  pure (init w h)

end Graphic

/-- C7: construction fails exactly when shader compilation or program
linking fails, synchronously (the constructor returns the error rather
than a renderer state); a vertex (resp. fragment) compile failure yields
the message `Error compiling vertex shader:\n` (resp. `fragment`) followed
by the compiler diagnostic, and a link failure yields
`Error linking shader program:\n` followed by the linker diagnostic. -/
theorem c7_construction_errors (env : GlEnv) (w h : ℚ) :
    Graphic.construct env w h =
      (if env.vertexOk = false then
        Except.error ("Error compiling vertex shader:\n" ++ env.vertexLog)
      else if env.fragmentOk = false then
        Except.error ("Error compiling fragment shader:\n" ++ env.fragmentLog)
      else if env.linkOk = false then
        Except.error ("Error linking shader program:\n" ++ env.linkLog)
      else Except.ok (Graphic.init w h)) ∧
    (Graphic.construct env w h).isOk =
      (env.vertexOk && env.fragmentOk && env.linkOk) := by
  obtain ⟨v, vl, f, fl, lk, ll⟩ := env
  cases v <;> cases f <;> cases lk <;>
    simp [Graphic.construct, Graphic.createShaderProgram, Graphic.compileShader,
      Except.isOk, Except.toBool, Bind.bind, Except.bind, Pure.pure, Except.pure]

/-! ### Resize (src/graphic.ts lines 255-260) -/

namespace Graphic

/-- Apply a sequence of window resize events, oldest first. -/
def applyResizes (s : GraphicState) (rs : List (ℚ × ℚ)) : GraphicState :=
  rs.foldl (fun a p => resize a p.1 p.2) s

theorem applyResizes_nil (s : GraphicState) : applyResizes s [] = s := rfl

theorem applyResizes_cons (s : GraphicState) (p : ℚ × ℚ) (rs : List (ℚ × ℚ)) :
    applyResizes s (p :: rs) = applyResizes (resize s p.1 p.2) rs := rfl

end Graphic

/-- C8: any number of resize events changes only the surface dimensions
(and the canvas backing buffer): the shader program identity, both
geometry buffer contents, the compile and allocation counters, and the
already-issued draws are untouched; the surface dimensions end up at the
last resize event's values, and the next draw uses them for both the
viewport and the `screen` uniform. -/
theorem c8_resize_effect (s : GraphicState) (rs : List (ℚ × ℚ)) :
    (Graphic.applyResizes s rs).program = s.program ∧
    (Graphic.applyResizes s rs).vertexBuffer = s.vertexBuffer ∧
    (Graphic.applyResizes s rs).uvBuffer = s.uvBuffer ∧
    (Graphic.applyResizes s rs).shaderCompiles = s.shaderCompiles ∧
    (Graphic.applyResizes s rs).bufferAllocs = s.bufferAllocs ∧
    (Graphic.applyResizes s rs).draws = s.draws ∧
    (Graphic.applyResizes s rs).width = (rs.map Prod.fst).getLastD s.width ∧
    (Graphic.applyResizes s rs).height = (rs.map Prod.snd).getLastD s.height ∧
    (Graphic.render (Graphic.applyResizes s rs)).draws =
      s.draws ++
        [{ viewportW := (rs.map Prod.fst).getLastD s.width
           viewportH := (rs.map Prod.snd).getLastD s.height
           screenW := (rs.map Prod.fst).getLastD s.width
           screenH := (rs.map Prod.snd).getLastD s.height
           time := s.time
           vertexCount := 4 }] := by
  induction rs generalizing s with
  | nil =>
    refine ⟨rfl, rfl, rfl, rfl, rfl, rfl, rfl, rfl, ?_⟩
    simp [Graphic.applyResizes, Graphic.render, VERTICES]
  | cons p rs ih =>
    rw [Graphic.applyResizes_cons]
    obtain ⟨h1, h2, h3, h4, h5, h6, h7, h8, h9⟩ := ih (Graphic.resize s p.1 p.2)
    refine ⟨h1, h2, h3, h4, h5, h6, ?_, ?_, ?_⟩
    · rw [h7]; rcases rs with _ | ⟨q, rs⟩ <;> rfl
    · rw [h8]; rcases rs with _ | ⟨q, rs⟩ <;> rfl
    · rw [h9]; rcases rs with _ | ⟨q, rs⟩ <;> rfl

/-! ### Page scroll handling (src/main.ts and src/unnamed/part_000) -/

/-- Presence of the `"shown"` CSS class on the navigation and main content
elements. -/
structure PageState where
  navShown : Bool
  mainShown : Bool
deriving Repr, DecidableEq

namespace App

/-- `App.scrollCheck` from src/unnamed/part_000 (lines 21-30): computes
`targetScroll = window.innerHeight * 0.1`; if `window.scrollY <
targetScroll` the `"shown"` class is removed from both the `nav` and
`main` elements, otherwise it is added to both. -/
def scrollCheck (innerHeight scrollY : ℚ) (p : PageState) : PageState :=
  let targetScroll := innerHeight * (1 / 10)
  if scrollY < targetScroll then
    { p with navShown := false, mainShown := false }
  else
    { p with navShown := true, mainShown := true }

/-- `App.scrollCheck` from src/main.ts (lines 20-27): same threshold, but
only the `main` element's class is toggled (no `nav` element is queried
or modified in this variant). -/
def scrollCheckMain (innerHeight scrollY : ℚ) (p : PageState) : PageState :=
  let targetScroll := innerHeight * (1 / 10)
  if scrollY < targetScroll then
    { p with mainShown := false }
  else
    { p with mainShown := true }

end App

/-- C9, counterexample: (a) with viewport height 10 and vertical scroll 1,
the scroll does NOT exceed 10% of the viewport height (it equals it), yet
the part_000 handler puts the `"shown"` class on both elements — so "the
class is present exactly when the scroll exceeds 10%" fails at the
boundary; (b) in the src/main.ts handler, with scroll 5 exceeding the
threshold 1, the navigation element's class is not set at all. -/
theorem c9_counterexample :
    ((App.scrollCheck 10 1 ⟨false, false⟩).navShown = true ∧
      (App.scrollCheck 10 1 ⟨false, false⟩).mainShown = true ∧
      ¬ ((10 : ℚ) * (1 / 10) < 1)) ∧
    ((App.scrollCheckMain 10 5 ⟨false, false⟩).navShown = false ∧
      (10 : ℚ) * (1 / 10) < 5) := by
  refine ⟨⟨?_, ?_, by norm_num⟩, ⟨?_, by norm_num⟩⟩ <;>
    norm_num [App.scrollCheck, App.scrollCheckMain]

/-- C9, amended: on every scroll event the `"shown"` class is set
according to scroll position, present exactly when the vertical scroll is
at least (not strictly greater than) 10% of the viewport height; the
part_000 handler toggles both the navigation and main content elements,
while the src/main.ts handler toggles only the main content element and
leaves the navigation element untouched. -/
theorem c9_scroll_threshold (innerHeight scrollY : ℚ) (p : PageState) :
    ((App.scrollCheck innerHeight scrollY p).navShown = true ↔
      innerHeight * (1 / 10) ≤ scrollY) ∧
    ((App.scrollCheck innerHeight scrollY p).mainShown = true ↔
      innerHeight * (1 / 10) ≤ scrollY) ∧
    ((App.scrollCheckMain innerHeight scrollY p).mainShown = true ↔
      innerHeight * (1 / 10) ≤ scrollY) ∧
    (App.scrollCheckMain innerHeight scrollY p).navShown = p.navShown := by
  unfold App.scrollCheck App.scrollCheckMain
  by_cases hc : scrollY < innerHeight * (1 / 10)
  · rw [if_pos hc, if_pos hc]
    refine ⟨?_, ?_, ?_, rfl⟩ <;> simpa using not_le.mpr hc
  · rw [if_neg hc, if_neg hc]
    refine ⟨?_, ?_, ?_, rfl⟩ <;> simpa using not_lt.mp hc

/-! ### Interleaving of resize events with host-loop callbacks -/

/-- An event delivered to the renderer: either a host-loop callback with
its timestamp, or a window resize reporting new viewport dimensions. -/
inductive HostEvent where
  | frame (t : ℚ)
  | resize (w h : ℚ)
deriving Repr, DecidableEq

namespace Graphic

/-- Dispatch one event to its handler. -/
def step (s : GraphicState) : HostEvent → GraphicState
  | .frame t => frame s t
  | .resize w h => resize s w h

/-- Run a sequence of interleaved events, oldest first. -/
def runEvents (s : GraphicState) : List HostEvent → GraphicState
  | [] => s
  | e :: es => runEvents (step s e) es

/-- The callback timestamps of an event sequence, in order. -/
def frameTimestamps : List HostEvent → List ℚ
  | [] => []
  | .frame t :: es => t :: frameTimestamps es
  | .resize _ _ :: es => frameTimestamps es

/-- Equality of the timing-and-pacing observables of two states. -/
def TimingEq (s1 s2 : GraphicState) : Prop :=
  s1.delta = s2.delta ∧ s1.time = s2.time ∧
  s1.lastTimestamp = s2.lastTimestamp ∧ s1.draws.length = s2.draws.length

theorem timingEq_refl (s : GraphicState) : TimingEq s s := ⟨rfl, rfl, rfl, rfl⟩

theorem timingEq_frame {s1 s2 : GraphicState} (h : TimingEq s1 s2) (t : ℚ) :
    TimingEq (frame s1 t) (frame s2 t) := by
  obtain ⟨hd, ht, hl, hn⟩ := h
  rw [frame_eq, frame_eq, hd, hl]
  by_cases hc : MILLIS_PER_FRAME ≤ s2.delta + (t - s2.lastTimestamp.getD t)
  · rw [if_pos hc, if_pos hc]
    exact ⟨rfl, rfl, rfl, by simp [hn]⟩
  · rw [if_neg hc, if_neg hc]
    exact ⟨rfl, rfl, rfl, hn⟩

theorem timingEq_resize (s : GraphicState) (w h : ℚ) :
    TimingEq (resize s w h) s := ⟨rfl, rfl, rfl, rfl⟩

theorem timingEq_trans {s1 s2 s3 : GraphicState}
    (h1 : TimingEq s1 s2) (h2 : TimingEq s2 s3) : TimingEq s1 s3 :=
  ⟨h1.1.trans h2.1, h1.2.1.trans h2.2.1, h1.2.2.1.trans h2.2.2.1,
    h1.2.2.2.trans h2.2.2.2⟩

/-- Interleaved resizes are invisible to the timing observables: running
any event sequence is timing-equivalent to running just its callbacks. -/
theorem runEvents_timingEq (evs : List HostEvent) :
    ∀ s1 s2 : GraphicState, TimingEq s1 s2 →
      TimingEq (runEvents s1 evs) (run s2 (frameTimestamps evs)) := by
  induction evs with
  | nil => intro s1 s2 h; exact h
  | cons e es ih =>
    intro s1 s2 h
    cases e with
    | frame t =>
      exact ih (frame s1 t) (frame s2 t) (timingEq_frame h t)
    | resize w hh =>
      exact ih (resize s1 w hh) s2 (timingEq_trans (timingEq_resize s1 w hh) h)

end Graphic

/-- C10: a resize event leaves the renderer's timing state — accumulated
time `delta`, animation time `time`, and `lastTimestamp` — unchanged (as
well as the issued draws), and consequently running any interleaving of
resizes between callbacks produces the same accumulated time, animation
time, last timestamp, and number of draw calls as running the callbacks
alone. -/
theorem c10_resize_timing (s : GraphicState) (w h : ℚ) (evs : List HostEvent) :
    ((Graphic.resize s w h).delta = s.delta ∧
      (Graphic.resize s w h).time = s.time ∧
      (Graphic.resize s w h).lastTimestamp = s.lastTimestamp ∧
      (Graphic.resize s w h).draws = s.draws) ∧
    ((Graphic.runEvents s evs).delta =
        (Graphic.run s (Graphic.frameTimestamps evs)).delta ∧
      (Graphic.runEvents s evs).time =
        (Graphic.run s (Graphic.frameTimestamps evs)).time ∧
      (Graphic.runEvents s evs).lastTimestamp =
        (Graphic.run s (Graphic.frameTimestamps evs)).lastTimestamp ∧
      (Graphic.runEvents s evs).draws.length =
        (Graphic.run s (Graphic.frameTimestamps evs)).draws.length) :=
  ⟨⟨rfl, rfl, rfl, rfl⟩,
    Graphic.runEvents_timingEq evs s s (Graphic.timingEq_refl s)⟩

end CanvasTest
